import Mathlib

/-
Shallow embedding of the admin entities listing page
(src/src/app/admin/entities/page.tsx): the entity data model, the query
key and request-parameter construction, the fetch result handling, the
column projection (one pure derivation per column), and the page render
function with its error / empty / populated presentation states.
-/

/-- One regulatory registration attached to an entity
(`registrations: Array<{ type: string; status: string }>`, page.tsx line 20). -/
structure Registration where
  type : String
  status : String
deriving Repr, DecidableEq

/-- The `Entity` interface of page.tsx lines 13-21. `legalForm?: string` is an
optional field, so it is `Option String` here; `some ""` models a present but
empty string. -/
structure Entity where
  id : String
  name : String
  country : String
  status : String
  legalForm : Option String
  createdAt : String
  registrations : List Registration
deriving Repr, DecidableEq

/-- JavaScript `a || b` where `a` is a possibly-undefined string: both
`undefined` and the empty string are falsy, so either yields `b`. -/
def jsOrStr : Option String → String → String
  | none, b => b
  | some a, b => if a = "" then b else a

/-- The `countryMap` object literal of page.tsx lines 80-84, as a lookup
returning `none` for keys not present. -/
def countryMap (c : String) : Option String :=
  if c = "AE" then some "🇦🇪 UAE"
  else if c = "SA" then some "🇸🇦 KSA"
  else if c = "EG" then some "🇪🇬 Egypt"
  else none

/-- The `statusStyles` object literal of page.tsx lines 97-101. -/
def statusStyles (s : String) : Option String :=
  if s = "ACTIVE" then some "bg-green-100 text-green-800"
  else if s = "PENDING" then some "bg-yellow-100 text-yellow-800"
  else if s = "ARCHIVED" then some "bg-gray-100 text-gray-800"
  else none

/-- The fallback badge style used when `statusStyles[entity.status]` is
undefined (page.tsx line 105). -/
def defaultBadge : String := "bg-gray-100 text-gray-800"

/-- Displayable cell values produced by the column derivations: a text node, a
link with text, a styled badge, a date cell (locale formatting of the raw
timestamp is external, so the cell carries the raw `createdAt`), and the
row-level navigation affordance (a `Link` wrapping a chevron button). -/
inductive CellValue where
  | link (href text : String)
  | text (s : String)
  | badge (cssClass text : String)
  | date (raw : String)
  | actionLink (href : String)
deriving Repr, DecidableEq

/-- The `name` column cell (page.tsx lines 67-74). -/
def nameCell (e : Entity) : CellValue :=
  .link ("/admin/entities/" ++ e.id) e.name

/-- The `country` column cell: `countryMap[entity.country] || entity.country`
(page.tsx lines 79-86). -/
def countryCell (e : Entity) : CellValue :=
  .text (jsOrStr (countryMap e.country) e.country)

/-- The `legalForm` column cell: `entity.legalForm || "—"` (page.tsx line 91). -/
def legalFormCell (e : Entity) : CellValue :=
  .text (jsOrStr e.legalForm "—")

/-- The `status` column cell: a span whose class is the template literal of
page.tsx lines 104-106 and whose text is the raw status (line 108). -/
def statusCell (e : Entity) : CellValue :=
  .badge ("px-2 py-1 rounded text-sm font-medium " ++
            jsOrStr (statusStyles e.status) defaultBadge)
    e.status

/-- The `registrations` column cell (page.tsx lines 116-121): counts
registrations with status `"VERIFIED"` and renders `"<verified>/<total>"`. -/
def registrationsCell (e : Entity) : CellValue :=
  .text (toString (e.registrations.filter (fun r => r.status == "VERIFIED")).length
           ++ "/" ++ toString e.registrations.length)

/-- The `createdAt` column cell (page.tsx lines 126-133); the
`toLocaleDateString` formatting is external, so the cell carries the raw
timestamp it is determined by. -/
def createdAtCell (e : Entity) : CellValue :=
  .date e.createdAt

/-- The `actions` column cell (page.tsx lines 138-144): a navigation link to
the entity detail route, rendered unconditionally (no capability check). -/
def actionsCell (e : Entity) : CellValue :=
  .actionLink ("/admin/entities/" ++ e.id)

/-- A column descriptor: id, header, and pure cell derivation. -/
structure Column where
  id : String
  header : String
  cell : Entity → CellValue

/-- The fixed ordered column list of page.tsx lines 63-146. -/
def columns : List Column :=
  [⟨"name", "Business Name", nameCell⟩,
   ⟨"country", "Country", countryCell⟩,
   ⟨"legalForm", "Legal Form", legalFormCell⟩,
   ⟨"status", "Status", statusCell⟩,
   ⟨"registrations", "Registrations", registrationsCell⟩,
   ⟨"createdAt", "Created", createdAtCell⟩,
   ⟨"actions", "Actions", actionsCell⟩]

/-- The react-query cache key of page.tsx line 36:
`["entities", searchTerm, countryFilter, statusFilter]` — all three filter
fields appear positionally, whether empty or not. -/
def queryKey (searchTerm countryFilter statusFilter : String) : List String :=
  ["entities", searchTerm, countryFilter, statusFilter]

/-- Key built following the spec sentence "Builds a canonical key from
non-empty filter fields only (empty fields are omitted from the key
entirely)" — spec-side definition, for comparison with `queryKey`. -/
def specCanonicalKey (searchTerm countryFilter statusFilter : String) : List String :=
  "entities" ::
    ((if searchTerm = "" then [] else [searchTerm]) ++
     (if countryFilter = "" then [] else [countryFilter]) ++
     (if statusFilter = "" then [] else [statusFilter]))

/-- The `URLSearchParams` construction of page.tsx lines 38-42: each spread
`...(x && { k: x })` contributes the pair `(k, x)` exactly when `x` is
non-empty (an empty string is falsy and spreads to nothing). -/
def buildParams (searchTerm countryFilter statusFilter : String) :
    List (String × String) :=
  (if searchTerm = "" then [] else [("search", searchTerm)]) ++
  (if countryFilter = "" then [] else [("country", countryFilter)]) ++
  (if statusFilter = "" then [] else [("status", statusFilter)])

/-- An HTTP response as observed by `queryFn`: the numeric status, the `ok`
flag the code branches on, and the parsed `result.data` payload. -/
structure HttpResponse where
  status : Nat
  ok : Bool
  data : List Entity

/-- The message of the error thrown on a non-ok response (page.tsx line 47). -/
def fetchFailedMessage : String := "Failed to fetch entities"

/-- The `queryFn` of page.tsx lines 37-52: throws
`Error("Failed to fetch entities")` whenever `response.ok` is false, and
otherwise returns `result.data`. -/
def queryFn (r : HttpResponse) : Except String (List Entity) :=
  if r.ok then .ok r.data else .error fetchFailedMessage

/-- The three filter controls as rendered (page.tsx lines 180-212), each bound
to its current filter value. -/
structure FilterControls where
  searchValue : String
  countryValue : String
  statusValue : String
deriving Repr, DecidableEq

/-- The body of the table card (page.tsx lines 228-274): either the empty
state, whose create call-to-action is present iff the capability check passed
(line 236), or the table with one `(key, cells)` row per entity. -/
inductive TableBody where
  | emptyState (createCta : Bool)
  | table (rows : List (String × List CellValue))
deriving Repr, DecidableEq

/-- What the component returns: either the standalone error panel of page.tsx
lines 148-157 (nothing else is rendered in that branch), or the full page with
the header create button flag, the filter controls, the results summary text,
and the table body. -/
inductive View where
  | errorPanel (title message : String)
  | page (createHeaderButton : Bool) (filters : FilterControls)
      (summary : String) (body : TableBody)
deriving Repr, DecidableEq

/-- Everything the component render reads: the capability check, the query
state (`isLoading`, `error`, `data`), and the three filter state values. -/
structure RenderInput where
  can : String → Bool
  isLoading : Bool
  error : Option String
  entities : List Entity
  searchTerm : String
  countryFilter : String
  statusFilter : String

/-- The results summary line of page.tsx lines 215-224. -/
def summaryText (isLoading : Bool) (n : Nat) : String :=
  if isLoading then "Loading entities..."
  else "Showing " ++ toString n ++ " entit" ++ (if n = 1 then "y" else "ies")

/-- The component render of page.tsx lines 148-277. When `error` is set the
component returns only the error panel (early return at line 148). Otherwise
it renders the header (create button gated by `can("entities:create")`), the
filter controls, the summary, and either the empty state (when there are no
entities and loading is finished) or one table row per entity, in order, with
the cells produced by `columns`. -/
def renderPage (inp : RenderInput) : View :=
  match inp.error with
  | some msg => .errorPanel "Error Loading Entities" msg
  | none =>
    .page (inp.can "entities:create")
      ⟨inp.searchTerm, inp.countryFilter, inp.statusFilter⟩
      (summaryText inp.isLoading inp.entities.length)
      (if inp.entities.length = 0 ∧ inp.isLoading = false then
        .emptyState (inp.can "entities:create")
      else
        .table (inp.entities.map (fun e => (e.id, columns.map (fun col => col.cell e)))))

/-- The cell rows displayed by a view (empty for the error panel and the empty
state). -/
def viewRows : View → List (List CellValue)
  | .page _ _ _ (.table rows) => rows.map Prod.snd
  | _ => []

/-- The row keys (entity ids) displayed by a view. -/
def viewRowKeys : View → List String
  | .page _ _ _ (.table rows) => rows.map Prod.fst
  | _ => []

/-- The filter controls of a view, when rendered. -/
def viewFilters : View → Option FilterControls
  | .page _ f _ _ => some f
  | _ => none

/-- Whether the header create button is rendered, when the header is rendered
at all. -/
def viewHeaderCreate : View → Option Bool
  | .page b _ _ _ => some b
  | _ => none

/-- Whether the empty-state create call-to-action is rendered, when the view
is in the empty state. -/
def viewEmptyCta : View → Option Bool
  | .page _ _ _ (.emptyState b) => some b
  | _ => none

/-- Whether the view is the standalone error panel. -/
def isErrorPanel : View → Bool
  | .errorPanel _ _ => true
  | _ => false

/-- The sample entity of the spec's end-to-end scenario (§8). -/
def acme : Entity :=
  ⟨"1", "Acme", "AE", "ACTIVE", none, "2024-01-01T00:00:00Z",
   [⟨"VAT", "VERIFIED"⟩, ⟨"TRADE", "PENDING"⟩]⟩

/-! ## Claim theorems -/

/-- C1 counterexample: with `error` set and a previously fetched record still
in `entities`, the rendered view displays no rows at all — the populated view
is blanked by the error branch, contradicting "a transient failure never
blanks a previously populated view". -/
theorem c1_counterexample :
    viewRows (renderPage ⟨fun _ => true, false, some fetchFailedMessage,
      [acme], "", "", ""⟩) = []
    ∧ [acme] ≠ ([] : List Entity) := by
  exact ⟨rfl, by decide⟩

/-- C1 (amended): when a fetch fails the error is recorded as the single
`FetchFailed` error ("Failed to fetch entities"), but the view does not
preserve cached records for display: whenever `error` is set, the component
returns only the error panel, so no rows are rendered regardless of the
cached `entities`. -/
theorem c1_amended (r : HttpResponse) (inp : RenderInput) (msg : String)
    (hr : r.ok = false) (he : inp.error = some msg) :
    queryFn r = .error fetchFailedMessage
    ∧ renderPage inp = .errorPanel "Error Loading Entities" msg
    ∧ viewRows (renderPage inp) = [] := by
  refine ⟨by simp [queryFn, hr], ?_, ?_⟩
  · simp [renderPage, he]
  · simp [renderPage, he, viewRows]

/-- C1 witness: the amended theorem applied at a failed response and a render
input holding a cached record. -/
theorem c1_witness :
    queryFn ⟨500, false, []⟩ = .error fetchFailedMessage
    ∧ renderPage ⟨fun _ => true, true, some fetchFailedMessage, [acme], "a", "AE", ""⟩
        = .errorPanel "Error Loading Entities" fetchFailedMessage
    ∧ viewRows (renderPage ⟨fun _ => true, true, some fetchFailedMessage, [acme], "a", "AE", ""⟩)
        = [] :=
  c1_amended ⟨500, false, []⟩
    ⟨fun _ => true, true, some fetchFailedMessage, [acme], "a", "AE", ""⟩
    fetchFailedMessage rfl rfl

/-- C2 counterexample: for filter state `("", "AE", "")` the derived cache key
is `["entities", "", "AE", ""]` — the empty fields appear in the key, so it
differs from the key the spec describes (empty fields omitted entirely). -/
theorem c2_counterexample :
    queryKey "" "AE" "" ≠ specCanonicalKey "" "AE" ""
    ∧ "" ∈ queryKey "" "AE" "" := by
  decide

/-- C2 (amended): the cache key is `["entities", searchTerm, countryFilter,
statusFilter]` with every filter field included verbatim, empty or not; two
filter states derive the same key exactly when they are equal as triples. -/
theorem c2_amended (s c st s2 c2 st2 : String) :
    queryKey s c st = queryKey s2 c2 st2 ↔ (s = s2 ∧ c = c2 ∧ st = st2) := by
  simp [queryKey]

/-- C3 counterexample: in the error state the rendered view contains no filter
controls (`viewFilters` is `none`), contradicting "the three filter controls
are still rendered and editable". -/
theorem c3_counterexample :
    viewFilters (renderPage ⟨fun _ => false, false, some fetchFailedMessage,
      [], "a", "AE", "ACTIVE"⟩) = none := rfl

/-- C3 (amended): in the Error presentation state the error is surfaced in a
standalone panel, but the view is not interactive: the error branch returns
only the panel, so the filter controls are not rendered at all. -/
theorem c3_amended (inp : RenderInput) (msg : String) (h : inp.error = some msg) :
    isErrorPanel (renderPage inp) = true
    ∧ viewFilters (renderPage inp) = none := by
  constructor <;> simp [renderPage, h, isErrorPanel, viewFilters]

/-- C3 witness: the amended theorem applied at a concrete error input. -/
theorem c3_witness :
    isErrorPanel (renderPage ⟨fun _ => true, false, some fetchFailedMessage,
      [], "x", "", ""⟩) = true
    ∧ viewFilters (renderPage ⟨fun _ => true, false, some fetchFailedMessage,
      [], "x", "", ""⟩) = none :=
  c3_amended ⟨fun _ => true, false, some fetchFailedMessage, [], "x", "", ""⟩
    fetchFailedMessage rfl

/-- C4: the registrations cell renders `"<verified>/<total>"` where verified
counts registrations with status `"VERIFIED"`; verified never exceeds total,
and an entity with zero registrations renders `"0/0"` (the derivation is a
total function — no division occurs at all). -/
theorem c4_registrations_ratio (e : Entity) :
    registrationsCell e =
      .text (toString (e.registrations.filter (fun r => r.status == "VERIFIED")).length
               ++ "/" ++ toString e.registrations.length)
    ∧ (e.registrations.filter (fun r => r.status == "VERIFIED")).length
        ≤ e.registrations.length
    ∧ (e.registrations = [] → registrationsCell e = .text "0/0") := by
  refine ⟨rfl, List.length_filter_le _ _, fun h => ?_⟩
  simp only [registrationsCell, h, List.filter_nil, List.length_nil]
  rfl

/-- C4 witness: the theorem applied at an entity with zero registrations. -/
theorem c4_witness :
    registrationsCell ⟨"2", "NoRegs", "AE", "ACTIVE", none, "2024-02-02", []⟩
      = .text "0/0" :=
  (c4_registrations_ratio ⟨"2", "NoRegs", "AE", "ACTIVE", none, "2024-02-02", []⟩).2.2 rfl

/-- C5: for a country code outside {AE, SA, EG} the country cell renders the
raw code, and for a status outside {ACTIVE, PENDING, ARCHIVED} the status cell
renders the raw status text with the default neutral badge style; both
derivations are total functions. -/
theorem c5_fallbacks (e : Entity) :
    (e.country ∉ (["AE", "SA", "EG"] : List String) →
      countryCell e = .text e.country)
    ∧ (e.status ∉ (["ACTIVE", "PENDING", "ARCHIVED"] : List String) →
        statusCell e =
          .badge ("px-2 py-1 rounded text-sm font-medium " ++ defaultBadge) e.status) := by
  constructor
  · intro h
    simp only [List.mem_cons, List.not_mem_nil, or_false, not_or] at h
    obtain ⟨h1, h2, h3⟩ := h
    simp [countryCell, countryMap, jsOrStr, h1, h2, h3]
  · intro h
    simp only [List.mem_cons, List.not_mem_nil, or_false, not_or] at h
    obtain ⟨h1, h2, h3⟩ := h
    simp [statusCell, statusStyles, jsOrStr, h1, h2, h3]

/-- C5 witness: the theorem applied at an entity with country "FR" and status
"SUSPENDED". -/
theorem c5_witness :
    countryCell ⟨"9", "X Co", "FR", "SUSPENDED", none, "2024-03-03", []⟩ = .text "FR"
    ∧ statusCell ⟨"9", "X Co", "FR", "SUSPENDED", none, "2024-03-03", []⟩
        = .badge ("px-2 py-1 rounded text-sm font-medium " ++ defaultBadge) "SUSPENDED" :=
  ⟨(c5_fallbacks ⟨"9", "X Co", "FR", "SUSPENDED", none, "2024-03-03", []⟩).1 (by decide),
   (c5_fallbacks ⟨"9", "X Co", "FR", "SUSPENDED", none, "2024-03-03", []⟩).2 (by decide)⟩

/-- C6: every response with `ok = false` produces the same single failure
("Failed to fetch entities"), with no dependence on the numeric status code. -/
theorem c6_uniform_failure (r : HttpResponse) (h : r.ok = false) :
    queryFn r = .error fetchFailedMessage := by
  simp [queryFn, h]

/-- C6 witness: a 403 response and a 500 response produce the identical
failure. -/
theorem c6_witness :
    queryFn ⟨403, false, []⟩ = .error fetchFailedMessage
    ∧ queryFn ⟨500, false, [acme]⟩ = .error fetchFailedMessage :=
  ⟨c6_uniform_failure ⟨403, false, []⟩ rfl,
   c6_uniform_failure ⟨500, false, [acme]⟩ rfl⟩

/-- C7: the request parameter list contains each of `search`, `country`,
`status` exactly when the corresponding filter field is non-empty, with the
filter value carried verbatim; an empty field is omitted, never sent as an
empty-string constraint. -/
theorem c7_params_omit_empty (s c st : String) :
    (buildParams s c st).lookup "search" = (if s = "" then none else some s)
    ∧ (buildParams s c st).lookup "country" = (if c = "" then none else some c)
    ∧ (buildParams s c st).lookup "status" = (if st = "" then none else some st) := by
  rcases eq_or_ne s "" with hs | hs <;> rcases eq_or_ne c "" with hc | hc <;>
    rcases eq_or_ne st "" with hst | hst <;>
  · refine ⟨?_, ?_, ?_⟩ <;> simp [buildParams, hs, hc, hst, List.lookup]

/-- C8: capability gating is page-level only: the header create button flag
equals `can "entities:create"`, the empty-state call-to-action flag equals
`can "entities:create"` when the empty state shows, while the per-row action
affordance is a fixed navigation link present among every entity's cells,
with no capability check involved. -/
theorem c8_capability_gating (inp : RenderInput) (h : inp.error = none) :
    viewHeaderCreate (renderPage inp) = some (inp.can "entities:create")
    ∧ (inp.entities = [] → inp.isLoading = false →
        viewEmptyCta (renderPage inp) = some (inp.can "entities:create"))
    ∧ (∀ e : Entity, actionsCell e ∈ columns.map (fun col => col.cell e))
    ∧ (∀ e : Entity, actionsCell e = .actionLink ("/admin/entities/" ++ e.id)) := by
  refine ⟨?_, ?_, ?_, fun e => rfl⟩
  · simp [renderPage, h, viewHeaderCreate]
  · intro h1 h2
    simp [renderPage, h, h1, h2, viewEmptyCta]
  · intro e
    simp [columns]

/-- C8 witness: with an empty result and no permission the create
call-to-action flag is false; with permission granted the header button flag
is true. -/
theorem c8_witness :
    viewHeaderCreate (renderPage ⟨fun a => a == "entities:create", false, none,
      [], "", "", ""⟩) = some true
    ∧ viewEmptyCta (renderPage ⟨fun _ => false, false, none, [], "", "", ""⟩)
        = some false :=
  ⟨(c8_capability_gating ⟨fun a => a == "entities:create", false, none,
      [], "", "", ""⟩ rfl).1,
   (c8_capability_gating ⟨fun _ => false, false, none, [], "", "", ""⟩ rfl).2.1 rfl rfl⟩

/-- C9: in the populated state (no error, at least one record) the view
renders exactly one row per fetched record, keyed by the record ids in the
order received, with each row's cells produced by the column projection — no
re-sorting, filtering or deduplication. -/
theorem c9_rows_in_order (inp : RenderInput) (h : inp.error = none)
    (hne : inp.entities ≠ []) :
    viewRows (renderPage inp) = inp.entities.map (fun e => columns.map (fun col => col.cell e))
    ∧ viewRowKeys (renderPage inp) = inp.entities.map Entity.id
    ∧ (viewRows (renderPage inp)).length = inp.entities.length := by
  have hcond : ¬(inp.entities = [] ∧ inp.isLoading = false) := fun hc => hne hc.1
  refine ⟨?_, ?_, ?_⟩ <;>
    simp [renderPage, h, hcond, viewRows, viewRowKeys, List.map_map, Function.comp]

/-- C9 witness: the theorem applied at a two-record list (with a duplicate
name) — keys come out in the received order. -/
theorem c9_witness :
    viewRowKeys (renderPage ⟨fun _ => true, false, none,
      [acme, ⟨"7", "Acme", "EG", "PENDING", some "LLC", "2024-05-05", []⟩],
      "", "", ""⟩) = ["1", "7"] := by
  have h := (c9_rows_in_order ⟨fun _ => true, false, none,
    [acme, ⟨"7", "Acme", "EG", "PENDING", some "LLC", "2024-05-05", []⟩],
    "", "", ""⟩ rfl (by simp)).2.1
  simpa [acme] using h

/-- C10: a present-but-empty `legalForm` renders the placeholder "—" exactly
like an absent one, and the legal-form cell is never a blank text node. -/
theorem c10_legalform_placeholder (e : Entity) :
    (e.legalForm = some "" → legalFormCell e = .text "—")
    ∧ (e.legalForm = none → legalFormCell e = .text "—")
    ∧ legalFormCell e ≠ .text "" := by
  refine ⟨fun h => by simp [legalFormCell, h, jsOrStr], fun h => by simp [legalFormCell, h, jsOrStr], ?_⟩
  rcases he : e.legalForm with _ | s
  · simp [legalFormCell, he, jsOrStr]
  · rcases eq_or_ne s "" with hs | hs <;> simp [legalFormCell, he, jsOrStr, hs]

/-- C10 witness: the theorem applied at an entity whose `legalForm` is the
present empty string. -/
theorem c10_witness :
    legalFormCell ⟨"3", "Blank LLC", "SA", "PENDING", some "", "2024-04-04", []⟩
      = .text "—" :=
  (c10_legalform_placeholder ⟨"3", "Blank LLC", "SA", "PENDING", some "", "2024-04-04", []⟩).1 rfl
